import Mathlib

/-!
# Verification of the libsiae PKCS#7 / smart-card library

Shallow embedding, in Lean 4, of the parts of the libsiae sources that the
specification's testable claims are about:

* the per-slot transaction counter (`scardhal.c`: `BeginTransactionML`,
  `EndTransactionML`),
* the APDU transport with reset recovery (`scardhal.c`: `SendAPDUML`),
* the card primitives (`libsiaecard.c`: `VerifyPINML`, `GetSNML`, `SignML`),
* the ASN.1/DER encoder node tree (`asn1/*.cpp`),
* the DER micro-parser (`pkcs7.cpp`: `der_parse`),
* the PKCS#7 sign entry point error flow (`pkcs7.cpp`: `PKCS7SignML`,
  `SignDataML`),
* the base64 codec (`base64.h` / `base64.cpp`),
* the quoted-printable encoder (`smime.cpp`: `StringToQuotedPrintable`).

Machine words are modelled as `Nat` with explicit masking where the C code's
32-bit truncation matters; byte buffers are `List Nat` with each entry < 256;
the card/driver environment is passed explicitly as data.
-/

/-! ## Error codes and status words (libsiaecardt.h, internals.h) -/

def C_OK : Nat := 0x0000

def C_CONTEXT_ERROR : Nat := 0x0001

def C_NOT_INITIALIZED : Nat := 0x0002

def C_ALREADY_INITIALIZED : Nat := 0x0003

def C_NO_CARD : Nat := 0x0004

def C_FILE_NOT_FOUND : Nat := 0x6A82

def C_WRONG_LEN : Nat := 0x6A85

def C_WRONG_LENGTH : Nat := 0x6282

def C_UNKNOWN_OBJECT : Nat := 0x6A88

def C_GENERIC_ERROR : Nat := 0xFFFF

def SW_OK : Nat := 0x9000

def SW_WRONG_LENGTH : Nat := 0x6282

def SW_AUTH_FAILED : Nat := 0x6300

/-! ## Transaction counter (scardhal.c, BeginTransactionML / EndTransactionML)

`hCardsTransactions[nSlot]` is a C `int`; we model it as `Int` so that the
claimed invariant "the counter is ≥ 0" is a real statement.  `BeginTransactionML`
increments unconditionally; `EndTransactionML` decrements only when the counter
is > 0 (it saturates at 0). -/

inductive TxnOp where
  | beginT : TxnOp
  | endT : TxnOp
deriving DecidableEq, Repr

def txnStep (d : Int) : TxnOp → Int
  | .beginT => d + 1
  | .endT => if d > 0 then d - 1 else d

def txnRun (d : Int) (ops : List TxnOp) : Int :=
  ops.foldl txnStep d

def countBegin (ops : List TxnOp) : Nat :=
  ops.count .beginT

def countEnd (ops : List TxnOp) : Nat :=
  ops.count .endT

theorem txnRun_nonneg (d : Int) (hd : 0 ≤ d) (ops : List TxnOp) :
    0 ≤ txnRun d ops := by
  induction ops generalizing d with
  | nil => simpa [txnRun]
  | cons op rest ih =>
    have hstep : 0 ≤ txnStep d op := by
      cases op with
      | beginT => simp [txnStep]; omega
      | endT => simp only [txnStep]; split <;> omega
    simpa [txnRun, List.foldl_cons] using ih (txnStep d op) hstep

theorem txnRun_balanced (d : Int) (hd : 0 ≤ d) (ops : List TxnOp)
    (hpre : ∀ n, n ≤ ops.length →
      (countEnd (ops.take n) : Int) ≤ d + countBegin (ops.take n)) :
    txnRun d ops = d + countBegin ops - countEnd ops := by
  induction ops generalizing d with
  | nil => simp [txnRun, countBegin, countEnd]
  | cons op rest ih =>
    cases op with
    | beginT =>
      have hstep : txnStep d .beginT = d + 1 := by simp [txnStep]
      have hrest : ∀ n, n ≤ rest.length →
          (countEnd (rest.take n) : Int) ≤ (d + 1) + countBegin (rest.take n) := by
        intro n hn
        have := hpre (n + 1) (by simpa using Nat.succ_le_succ hn)
        simp [countEnd, countBegin, List.take_succ_cons] at this ⊢
        omega
      have := ih (d + 1) (by omega) hrest
      simp only [txnRun, List.foldl_cons] at *
      rw [hstep, this]
      simp [countBegin, countEnd]
      omega
    | endT =>
      have hd1 : (1 : Int) ≤ d := by
        have := hpre 1 (by simp)
        simp [countEnd, countBegin] at this
        omega
      have hstep : txnStep d .endT = d - 1 := by
        simp [txnStep]
        omega
      have hrest : ∀ n, n ≤ rest.length →
          (countEnd (rest.take n) : Int) ≤ (d - 1) + countBegin (rest.take n) := by
        intro n hn
        have := hpre (n + 1) (by simpa using Nat.succ_le_succ hn)
        simp [countEnd, countBegin, List.take_succ_cons] at this ⊢
        omega
      have := ih (d - 1) (by omega) hrest
      simp only [txnRun, List.foldl_cons] at *
      rw [hstep, this]
      simp [countBegin, countEnd]
      omega

/-- C5 counterexample: the sequence [end, begin] contains one begin and one
end, yet leaves the transaction counter at 1, not 0 (the unbalanced end
saturates at 0 and is then not compensated). -/
theorem txn_equal_counts_counterexample :
    countBegin [TxnOp.endT, TxnOp.beginT] = countEnd [TxnOp.endT, TxnOp.beginT] ∧
    txnRun 0 [TxnOp.endT, TxnOp.beginT] ≠ 0 := by
  constructor
  · decide
  · decide

/-- C5 (amended): starting from depth 0, the transaction counter is ≥ 0 after
every prefix of any begin/end sequence; and after a sequence in which every
prefix has at most as many ends as begins and the totals are equal, the counter
is back to 0. -/
theorem txn_depth_invariant (ops : List TxnOp) :
    (∀ n, 0 ≤ txnRun 0 (ops.take n)) ∧
    ((∀ n, n ≤ ops.length → countEnd (ops.take n) ≤ countBegin (ops.take n)) →
      countBegin ops = countEnd ops → txnRun 0 ops = 0) := by
  constructor
  · intro n
    exact txnRun_nonneg 0 (by omega) (ops.take n)
  · intro hpre htot
    have := txnRun_balanced 0 (by omega) ops (by
      intro n hn
      have := hpre n hn
      omega)
    omega

/-- Witness for `txn_depth_invariant` at a concrete balanced sequence. -/
theorem txn_depth_invariant_witness :
    txnRun 0 [TxnOp.beginT, TxnOp.beginT, TxnOp.endT, TxnOp.endT] = 0 := by
  have h := txn_depth_invariant [TxnOp.beginT, TxnOp.beginT, TxnOp.endT, TxnOp.endT]
  exact h.2 (by decide) (by decide)

/-! ## GetSNML (libsiaecard.c)

The card-dependent results of the three operations GetSNML performs (two
SELECTs and one READ BINARY of the 26-byte EF GDO) are passed as data.  The
caller's 8-byte serial buffer is modelled as the `serial` argument; the
function returns the pair (return code, serial buffer after the call). -/

structure GetSNEnv where
  initialized : Bool
  selMFRes : Nat
  selGDORes : Nat
  readBinRes : Nat
  gdo : List Nat
deriving Repr

def getSNML (e : GetSNEnv) (serial : List Nat) : Nat × List Nat :=
  if !e.initialized then (C_NOT_INITIALIZED, serial)
  else if e.selMFRes ≠ C_OK then (C_OK, serial)
  else if e.selGDORes ≠ C_OK then (C_OK, serial)
  else if e.readBinRes ≠ C_OK then (C_OK, serial)
  else (C_OK, (e.gdo.drop 18).take 8)

/-- C10: on an initialized slot `GetSNML` returns `C_OK` unconditionally, even
when the SELECT of the master file or of EF GDO or the READ BINARY of the GDO
fails; and in those failure cases the caller's serial buffer is returned
unmodified. -/
theorem getSNML_returns_ok (e : GetSNEnv) (serial : List Nat)
    (hinit : e.initialized = true) :
    (getSNML e serial).1 = C_OK ∧
    ((e.selMFRes ≠ C_OK ∨ e.selGDORes ≠ C_OK ∨ e.readBinRes ≠ C_OK) →
      (getSNML e serial).2 = serial) := by
  constructor
  · simp only [getSNML, hinit, Bool.not_true, Bool.false_eq_true, if_false]
    split
    · rfl
    · split
      · rfl
      · split
        · rfl
        · rfl
  · intro hfail
    simp only [getSNML, hinit, Bool.not_true, Bool.false_eq_true, if_false]
    rcases hfail with h | h | h
    · simp [h]
    · split
      · rfl
      · simp [h]
    · split
      · rfl
      · split
        · rfl
        · simp [h]

/-- Witness for `getSNML_returns_ok`: a failing SELECT of the master file
still yields `C_OK` and leaves the serial bytes untouched. -/
theorem getSNML_returns_ok_witness :
    (getSNML ⟨true, C_FILE_NOT_FOUND, C_OK, C_OK, []⟩ [1, 2, 3, 4, 5, 6, 7, 8]).1 = C_OK ∧
    (getSNML ⟨true, C_FILE_NOT_FOUND, C_OK, C_OK, []⟩ [1, 2, 3, 4, 5, 6, 7, 8]).2 =
      [1, 2, 3, 4, 5, 6, 7, 8] := by
  have h := getSNML_returns_ok ⟨true, C_FILE_NOT_FOUND, C_OK, C_OK, []⟩
    [1, 2, 3, 4, 5, 6, 7, 8] rfl
  exact ⟨h.1, h.2 (Or.inl (by decide))⟩

/-! ## VerifyPINML (libsiaecard.c)

The card's status-word answers to the up-to-three VERIFY queries are passed as
`sw1` (Lc = PIN length), `sw2` (the Lc = 8 retry, used only when `sw1` is
0x6700) and `sw3` (the Lc = 0 query, used only when the latest answer is
0x6300).  Transport is assumed to succeed (`rv == C_OK` throughout), matching
the claim's scope.  Besides the return code the model records the list of
(Lc, command data) pairs actually sent. -/

def verifyPinTrace (initialized : Bool) (nPIN : Nat) (pin : List Nat)
    (sw1 sw2 sw3 : Nat) : Nat × List (Nat × List Nat) :=
  if !initialized then (C_NOT_INITIALIZED, [])
  else if nPIN ≠ 1 then (C_GENERIC_ERROR, [])
  else
    let q1 : Nat × List Nat := (pin.length % 256, pin)
    let retry : Bool := sw1 = 0x6700
    let q2 : List (Nat × List Nat) :=
      if retry then [(8, pin.take 8 ++ List.replicate (8 - min pin.length 8) 0)] else []
    let swA : Nat := if retry then sw2 else sw1
    if swA = SW_AUTH_FAILED then (sw3, q1 :: q2 ++ [(0, [])])
    else if swA ≠ SW_OK then (swA, q1 :: q2)
    else (C_OK, q1 :: q2)

/-- C4 counterexample: if the first VERIFY answers 0x6300 and the follow-up
Lc = 0 query answers 0x9000, the code returns 0x9000 (the raw status word),
not `C_OK`, so "returns OK exactly when the final status word is 9000" fails. -/
theorem verifyPin_ok_iff_9000_counterexample :
    (verifyPinTrace true 1 [0x31, 0x32, 0x33, 0x34, 0x35] 0x6300 0 0x9000).1 ≠ C_OK := by
  decide

/-- C4 (amended): on an initialized slot with PIN id 1, `VerifyPINML` first
sends VERIFY with Lc = PIN length (and the PIN bytes); if the answer is 0x6700
it sends VERIFY once more with Lc = 8 and the PIN zero-padded or truncated to
8 bytes; if the latest answer is 0x6300 it re-issues VERIFY with Lc = 0 and
returns the status word of that final query verbatim (even when that status
word is 0x9000); otherwise it returns `C_OK` exactly when the latest status
word is 0x9000 and that status word itself otherwise. -/
theorem verifyPin_spec (pin : List Nat) (sw1 sw2 sw3 : Nat)
    (init : Bool) (nPIN : Nat) (hinit : init = true) (hn : nPIN = 1) :
    (verifyPinTrace init nPIN pin sw1 sw2 sw3).2 =
      (pin.length % 256, pin) ::
        (if sw1 = 0x6700 then
          [(8, pin.take 8 ++ List.replicate (8 - min pin.length 8) 0)] else []) ++
        (if (if sw1 = 0x6700 then sw2 else sw1) = 0x6300 then [(0, [])] else []) ∧
    (verifyPinTrace init nPIN pin sw1 sw2 sw3).1 =
      (if (if sw1 = 0x6700 then sw2 else sw1) = 0x6300 then sw3
       else if (if sw1 = 0x6700 then sw2 else sw1) = 0x9000 then C_OK
       else (if sw1 = 0x6700 then sw2 else sw1)) := by
  subst hinit hn
  simp only [verifyPinTrace, Bool.not_true, Bool.false_eq_true, if_false]
  by_cases h1 : sw1 = 0x6700 <;>
    by_cases hA : (if sw1 = 0x6700 then sw2 else sw1) = 0x6300 <;>
      simp_all [SW_AUTH_FAILED, SW_OK, C_OK] <;> split <;> simp_all

/-- Witness for `verifyPin_spec` at a concrete 5-byte PIN whose first VERIFY
answers 0x6700 (wrong length) and whose Lc = 8 retry answers 0x9000. -/
theorem verifyPin_spec_witness :
    (verifyPinTrace true 1 [0x31, 0x32, 0x33, 0x34, 0x35] 0x6700 0x9000 0).2 =
      [(5, [0x31, 0x32, 0x33, 0x34, 0x35]),
       (8, [0x31, 0x32, 0x33, 0x34, 0x35, 0, 0, 0])] ∧
    (verifyPinTrace true 1 [0x31, 0x32, 0x33, 0x34, 0x35] 0x6700 0x9000 0).1 = C_OK := by
  have h := verifyPin_spec [0x31, 0x32, 0x33, 0x34, 0x35] 0x6700 0x9000 0 true 1 rfl rfl
  simp only at h
  exact ⟨by rw [h.1]; decide, by rw [h.2]; decide⟩

/-! ## SendAPDUML reset recovery (scardhal.c)

The driver's behaviour is passed as a list of per-attempt outcomes: what
`SCardTransmit` reports on that attempt and, should it report
`SCARD_W_RESET_CARD`, whether the recovery calls (`SCardReconnect`, and
`SCardBeginTransaction` when the slot's transaction depth is > 0) succeed.
In the C code the `rv` from `SCardReconnect` is overwritten by the
`SCardBeginTransaction` result whenever the depth is > 0, so the retry
decision depends on `beginOk` alone in that case.  The recovery events that
were performed are returned alongside the result code. -/

inductive TxOutcome where
  | success : List Nat → TxOutcome
  | reset : TxOutcome
  | removed : TxOutcome
  | otherErr : TxOutcome
deriving DecidableEq, Repr

structure TxAttempt where
  outcome : TxOutcome
  reconnectOk : Bool
  beginOk : Bool
deriving DecidableEq, Repr

inductive HalEvent where
  | transmit : HalEvent
  | reconnect : HalEvent
  | beginTxn : HalEvent
deriving DecidableEq, Repr

def sendApduML (depth : Nat) : List TxAttempt → Option (Nat × List HalEvent)
  | [] => none
  | a :: rest =>
    match a.outcome with
    | .success _ => some (C_OK, [HalEvent.transmit])
    | .removed => some (C_NO_CARD, [HalEvent.transmit])
    | .otherErr => some (C_GENERIC_ERROR, [HalEvent.transmit])
    | .reset =>
      let recovery : List HalEvent :=
        HalEvent.reconnect :: (if depth > 0 then [HalEvent.beginTxn] else [])
      let recovered : Bool := if depth > 0 then a.beginOk else a.reconnectOk
      if recovered then
        match sendApduML depth rest with
        | none => none
        | some (code, evs) => some (code, HalEvent.transmit :: recovery ++ evs)
      else some (C_NO_CARD, [HalEvent.transmit] ++ recovery)

/-- C3 counterexample: two consecutive resets with successful recovery,
followed by a successful transmit, make `SendAPDUML` return `C_OK` — it keeps
retrying; the claimed hard `C_NO_CARD` failure after the second consecutive
reset does not happen. -/
theorem sendApdu_second_reset_counterexample :
    sendApduML 1 [⟨.reset, true, true⟩, ⟨.reset, true, true⟩,
                  ⟨.success [0x90, 0x00], true, true⟩] ≠
      some (C_NO_CARD, [HalEvent.transmit, HalEvent.reconnect, HalEvent.beginTxn,
                        HalEvent.transmit, HalEvent.reconnect, HalEvent.beginTxn]) ∧
    (sendApduML 1 [⟨.reset, true, true⟩, ⟨.reset, true, true⟩,
                   ⟨.success [0x90, 0x00], true, true⟩]).map Prod.fst = some C_OK := by
  constructor
  · decide
  · decide

/-- C3 (amended): on every "card reset" report `SendAPDUML` reconnects,
re-acquires the transaction lock exactly when the slot's transaction depth is
> 0, and re-executes the identical APDU — not just once but after every reset
whose recovery succeeds (here: `n` consecutive resets before a successful
transmit still end in `C_OK`); and the call returns `C_NO_CARD` when the
recovery of a reset fails, or when the driver reports the card removed,
not ready, or unavailable. -/
theorem sendApdu_reset_retry (depth : Nat) (n : Nat) (resp : List Nat)
    (rest : List TxAttempt) (a : TxAttempt) (ha : a.outcome = .reset)
    (hfail : (if depth > 0 then a.beginOk else a.reconnectOk) = false) :
    (sendApduML depth
        (List.replicate n ⟨.reset, true, true⟩ ++ ⟨.success resp, true, true⟩ :: rest) =
      some (C_OK,
        (List.flatten (List.replicate n
          ([HalEvent.transmit, HalEvent.reconnect] ++
            (if depth > 0 then [HalEvent.beginTxn] else [])))) ++ [HalEvent.transmit])) ∧
    sendApduML depth (a :: rest) =
      some (C_NO_CARD, [HalEvent.transmit, HalEvent.reconnect] ++
        (if depth > 0 then [HalEvent.beginTxn] else [])) ∧
    sendApduML depth (⟨.removed, true, true⟩ :: rest) =
      some (C_NO_CARD, [HalEvent.transmit]) := by
  refine ⟨?_, ?_, ?_⟩
  · induction n with
    | zero => simp [sendApduML]
    | succ k ih =>
      simp only [List.replicate_succ, List.cons_append, sendApduML, List.append_eq]
      rw [ih]
      by_cases hd : depth > 0 <;>
        simp [hd, List.replicate_succ, List.flatten_cons, List.append_assoc]
  · simp only [sendApduML, ha]
    rw [hfail]
    by_cases hd : depth > 0 <;> simp [hd]
  · simp [sendApduML]

/-- Witness for `sendApdu_reset_retry` at depth 1 with two consecutive resets
and a recovery whose lock re-acquisition fails. -/
theorem sendApdu_reset_retry_witness :
    sendApduML 1 [⟨.reset, true, true⟩, ⟨.reset, true, true⟩,
                  ⟨.success [0x90, 0x00], true, true⟩] =
      some (C_OK, [HalEvent.transmit, HalEvent.reconnect, HalEvent.beginTxn,
                   HalEvent.transmit, HalEvent.reconnect, HalEvent.beginTxn,
                   HalEvent.transmit]) ∧
    sendApduML 1 [⟨.reset, true, false⟩] =
      some (C_NO_CARD, [HalEvent.transmit, HalEvent.reconnect, HalEvent.beginTxn]) := by
  have h := sendApdu_reset_retry 1 2 [0x90, 0x00] [] ⟨.reset, true, false⟩ rfl rfl
  exact ⟨h.1, h.2.1⟩

/-! ## SignML and the PKCS7SignML error flow (libsiaecard.c, pkcs7.cpp)

The card-dependent results of each primitive inside `SignML` (three SELECTs,
MSE RESTORE, MSE SET, PSO SIGN) and inside `PKCS7SignML` (PIN verification,
key-id lookup, certificate fetch) are passed as data.  `rv` fields are the
transport-level results of `SendAPDUML`; `sw` fields are the card's status
words.  In `SignML` the result of the MSE RESTORE APDU is ignored by the code
(its `rv` is immediately overwritten), so it does not appear here. -/

structure SignEnv where
  initialized : Bool
  kx : Nat
  selMFRes : Nat
  selAppRes : Nat
  selP11Res : Nat
  mseRv : Nat
  mseSw : Nat
  signRv : Nat
  signSw : Nat
deriving Repr

def signML (e : SignEnv) : Nat :=
  if !e.initialized then C_NOT_INITIALIZED
  else if e.kx > 255 then C_UNKNOWN_OBJECT
  else if e.selMFRes ≠ C_OK then C_FILE_NOT_FOUND
  else if e.selAppRes ≠ C_OK then C_FILE_NOT_FOUND
  else if e.selP11Res ≠ C_OK then C_FILE_NOT_FOUND
  else if e.mseRv ≠ C_OK then e.mseRv
  else if e.mseSw ≠ SW_OK then e.mseSw
  else if e.signRv ≠ C_OK then e.signRv
  else if e.signSw ≠ SW_OK then e.signSw
  else C_OK

/-- Environment of the certificate fetch (`GetCert` / `GetCertificateML`,
libsiaecard.c): the result of the SELECT of the certificate EF, the result
and byte count of the READ BINARY of the 2-byte length prefix, the
certificate length those two bytes announce, and the result of the READ
BINARY of the certificate body. -/
structure GetCertEnv where
  selCertRes : Nat
  readLen1Res : Nat
  readLen1Cnt : Nat
  certSize : Nat
  readCertRes : Nat
deriving Repr

/-- `GetCert(fid, cert, dim)`: every failing SELECT or READ BINARY — card
status words included — is collapsed to `C_GENERIC_ERROR`
(`if (rv!=C_OK) return C_GENERIC_ERROR`); a caller buffer smaller than the
announced size yields `C_WRONG_LEN`; the body read runs only when the
caller passed a buffer (`haveBuf`, the `cert != NULL` test). -/
def GetCert (e : GetCertEnv) (dim : Nat) (haveBuf : Bool) : Nat :=
  if e.selCertRes ≠ C_OK then C_GENERIC_ERROR
  else if e.readLen1Res ≠ C_OK ∨ e.readLen1Cnt < 2 then C_GENERIC_ERROR
  else if dim < e.certSize then C_WRONG_LEN
  else if haveBuf then (if e.readCertRes ≠ C_OK then C_GENERIC_ERROR else C_OK)
  else C_OK

/-- `GetCertificateML`: subtracts 128 from the key id in BYTE arithmetic,
rejects a zero result (`if (k<=0)` on an unsigned byte), then `GetCert`. -/
def GetCertificateML (keyId : Nat) (e : GetCertEnv) (dim : Nat) (haveBuf : Bool) : Nat :=
  if (keyId + 128) % 256 = 0 then C_GENERIC_ERROR
  else GetCert e dim haveBuf

/-- Environment of `PKCS7SignML` called with `bInitialize = 0` on an already
initialized slot: `fileOk` stands for the fopen/malloc/fread of the input
file, `cert` for the card's answers during the certificate fetch (the same
for both `GetCertificateML` calls: a deterministic card), `hashOk` and
`certParseOk` for the SHA-1 calls and the certificate micro-parse inside
`SignDataML`, `writeOk` for the final `MemWriteFile`. -/
structure P7Env where
  fileOk : Bool
  verifyPinRes : Nat
  keyId : Nat
  cert : GetCertEnv
  hashOk : Bool
  certParseOk : Bool
  sign : SignEnv
  writeOk : Bool
deriving Repr

/-- `SignDataML` returns a boolean; it is TRUE exactly when the hash calls
succeed, the certificate parses, and `SignML` returned `C_OK`.  Any non-OK
result of `SignML` — including a card status word — is collapsed into FALSE. -/
def signDataOk (e : P7Env) : Bool :=
  e.hashOk && e.certParseOk && decide (signML e.sign = C_OK)

/-- `PKCS7SignML`: the first `GetCertificateML` call passes a NULL buffer
and `lenCer = 0`; the first call sets `lenCer` to the announced certificate
size, so the second passes a buffer of exactly `certSize` bytes. -/
def pkcs7SignML (e : P7Env) : Nat :=
  if !e.fileOk then C_GENERIC_ERROR
  else if e.verifyPinRes ≠ C_OK then e.verifyPinRes
  else if e.keyId = 0 then C_GENERIC_ERROR
  else if GetCertificateML e.keyId e.cert 0 false ≠ C_WRONG_LEN ∧
      GetCertificateML e.keyId e.cert 0 false ≠ C_OK then
    GetCertificateML e.keyId e.cert 0 false
  else if GetCertificateML e.keyId e.cert e.cert.certSize true ≠ C_OK then
    GetCertificateML e.keyId e.cert e.cert.certSize true
  else if !signDataOk e then C_GENERIC_ERROR
  else if e.writeOk then C_OK
  else C_GENERIC_ERROR

/-- C2 counterexample: every step succeeds except that the card answers the
MSE SET APDU with status word 0x6982; `PKCS7SignML` returns `C_GENERIC_ERROR`
(0xFFFF), not the status word 0x6982. -/
theorem pkcs7_sw_verbatim_counterexample :
    pkcs7SignML ⟨true, C_OK, 0x81, ⟨C_OK, C_OK, 2, 100, C_OK⟩, true, true,
        ⟨true, 0x81, C_OK, C_OK, C_OK, C_OK, 0x6982, C_OK, 0x9000⟩, true⟩ =
      C_GENERIC_ERROR ∧
    pkcs7SignML ⟨true, C_OK, 0x81, ⟨C_OK, C_OK, 2, 100, C_OK⟩, true, true,
        ⟨true, 0x81, C_OK, C_OK, C_OK, C_OK, 0x6982, C_OK, 0x9000⟩, true⟩ ≠ 0x6982 := by
  constructor
  · decide
  · decide

/-- C2 (amended): `PKCS7SignML` returns card status words verbatim only from
the PIN-verification step.  The certificate-fetch step never surfaces a
status word: any failing SELECT or READ BINARY inside `GetCert` — a card
status word included — is collapsed to `C_GENERIC_ERROR` before it reaches
`PKCS7SignML`.  `SignML` itself returns the MSE SET / PSO SIGN status word
verbatim, but `SignDataML` collapses any non-OK `SignML` result into FALSE,
which `PKCS7SignML` reports as `C_GENERIC_ERROR`. -/
theorem pkcs7_error_propagation (e : P7Env)
    (hfile : e.fileOk = true) :
    (e.verifyPinRes ≠ C_OK → pkcs7SignML e = e.verifyPinRes) ∧
    (e.sign.initialized = true → e.sign.kx ≤ 255 →
      e.sign.selMFRes = C_OK → e.sign.selAppRes = C_OK → e.sign.selP11Res = C_OK →
      e.sign.mseRv = C_OK → e.sign.mseSw ≠ SW_OK → signML e.sign = e.sign.mseSw) ∧
    ((e.cert.selCertRes ≠ C_OK ∨ e.cert.readLen1Res ≠ C_OK ∨ e.cert.readLen1Cnt < 2) →
      (∀ dim haveBuf, GetCert e.cert dim haveBuf = C_GENERIC_ERROR) ∧
      (e.verifyPinRes = C_OK → e.keyId ≠ 0 → pkcs7SignML e = C_GENERIC_ERROR)) ∧
    (e.verifyPinRes = C_OK → e.keyId ≠ 0 → (e.keyId + 128) % 256 ≠ 0 →
      e.cert.selCertRes = C_OK → e.cert.readLen1Res = C_OK → 2 ≤ e.cert.readLen1Cnt →
      e.cert.readCertRes = C_OK →
      signML e.sign ≠ C_OK → pkcs7SignML e = C_GENERIC_ERROR) := by
  refine ⟨?_, ?_, ?_, ?_⟩
  · intro hpin
    simp [pkcs7SignML, hfile, hpin]
  · intro h1 h2 h3 h4 h5 h6 h7
    simp [signML, h1, h3, h4, h5, h6, h7]
    omega
  · intro hbad
    have hcoll : ∀ dim haveBuf, GetCert e.cert dim haveBuf = C_GENERIC_ERROR := by
      intro dim haveBuf
      rcases hbad with h | h | h <;> simp [GetCert, h]
    refine ⟨hcoll, ?_⟩
    intro hpin hkid
    have hg : GetCertificateML e.keyId e.cert 0 false = C_GENERIC_ERROR := by
      unfold GetCertificateML
      split
      · rfl
      · exact hcoll 0 false
    simp [pkcs7SignML, hfile, hpin, hkid, hg, C_GENERIC_ERROR, C_WRONG_LEN, C_OK]
  · intro hpin hkid hk128 hsel hread hcnt hbody hsign
    have hok : signDataOk e = false := by
      simp [signDataOk, hsign]
    have hnotlt : ¬e.cert.readLen1Cnt < 2 := by omega
    have hg1 : GetCertificateML e.keyId e.cert 0 false = C_WRONG_LEN ∨
        GetCertificateML e.keyId e.cert 0 false = C_OK := by
      unfold GetCertificateML GetCert
      by_cases hs : 0 < e.cert.certSize
      · left
        simp [hk128, hsel, hread, hnotlt, hs]
      · right
        simp [hk128, hsel, hread, hnotlt, hs]
    have hg2 : GetCertificateML e.keyId e.cert e.cert.certSize true = C_OK := by
      unfold GetCertificateML GetCert
      simp [hk128, hsel, hread, hnotlt, hbody]
    have hcl : ¬(GetCertificateML e.keyId e.cert 0 false ≠ C_WRONG_LEN ∧
        GetCertificateML e.keyId e.cert 0 false ≠ C_OK) := by
      rcases hg1 with h | h <;> simp [h]
    simp [pkcs7SignML, hfile, hpin, hkid, hcl, hg2, hok]

/-- Witness for `pkcs7_error_propagation`: the PIN-verification status word
0x6983 propagates verbatim; a certificate-fetch SELECT answering 0x6A82 is
collapsed to `C_GENERIC_ERROR`; the MSE SET status word 0x6982 is returned
verbatim by `SignML` but surfaces from `PKCS7SignML` as `C_GENERIC_ERROR`. -/
theorem pkcs7_error_propagation_witness :
    pkcs7SignML ⟨true, 0x6983, 0x81, ⟨C_OK, C_OK, 2, 100, C_OK⟩, true, true,
        ⟨true, 0x81, C_OK, C_OK, C_OK, C_OK, 0x6982, C_OK, 0x9000⟩, true⟩ = 0x6983 ∧
    GetCert ⟨0x6A82, C_OK, 2, 100, C_OK⟩ 0 false = C_GENERIC_ERROR ∧
    pkcs7SignML ⟨true, C_OK, 0x81, ⟨0x6A82, C_OK, 2, 100, C_OK⟩, true, true,
        ⟨true, 0x81, C_OK, C_OK, C_OK, C_OK, C_OK, C_OK, 0x9000⟩, true⟩ =
      C_GENERIC_ERROR ∧
    signML ⟨true, 0x81, C_OK, C_OK, C_OK, C_OK, 0x6982, C_OK, 0x9000⟩ = 0x6982 ∧
    pkcs7SignML ⟨true, C_OK, 0x81, ⟨C_OK, C_OK, 2, 100, C_OK⟩, true, true,
        ⟨true, 0x81, C_OK, C_OK, C_OK, C_OK, 0x6982, C_OK, 0x9000⟩, true⟩ =
      C_GENERIC_ERROR := by
  refine ⟨?_, ?_, ?_, ?_, ?_⟩
  · exact (pkcs7_error_propagation _ rfl).1 (by decide)
  · exact (((pkcs7_error_propagation
      ⟨true, C_OK, 0x81, ⟨0x6A82, C_OK, 2, 100, C_OK⟩, true, true,
        ⟨true, 0x81, C_OK, C_OK, C_OK, C_OK, C_OK, C_OK, 0x9000⟩, true⟩ rfl).2.2.1
      (Or.inl (by decide))).1 0 false)
  · exact (((pkcs7_error_propagation _ rfl).2.2.1 (Or.inl (by decide))).2 rfl (by decide))
  · exact ((pkcs7_error_propagation
      ⟨true, C_OK, 0x81, ⟨C_OK, C_OK, 2, 100, C_OK⟩, true, true,
        ⟨true, 0x81, C_OK, C_OK, C_OK, C_OK, 0x6982, C_OK, 0x9000⟩, true⟩ rfl).2.1
      rfl (by decide) rfl rfl rfl rfl (by decide))
  · exact ((pkcs7_error_propagation _ rfl).2.2.2 rfl (by decide) (by decide)
      rfl rfl (by decide) rfl (by decide))

/-! ## ASN.1 common helpers (asn1/Asn1Common.cpp)

`PutDW` / `DWLength`: big-endian minimal unsigned encoding of a 32-bit word
(1..4 bytes).  `PutPackedDW` / `PackedDWLength`: base-128 encoding with
continuation bits (1..5 bytes).  `PutSignedDW` / `SignedDWLength`: minimal
two's-complement encoding of a 32-bit word read as signed (1..4 bytes).
Each output is the list of bytes the C routine writes, in order; the chained
`b` flag of the C code is reflected in the cumulative conditions. -/

def DWLength (d : Nat) : Nat :=
  if d &&& 0xFF000000 ≠ 0 then 4
  else if d &&& 0xFF0000 ≠ 0 then 3
  else if d &&& 0xFF00 ≠ 0 then 2
  else 1

def PutDW (d : Nat) : List Nat :=
  (if d &&& 0xFF000000 ≠ 0 then [(d >>> 24) &&& 0xFF] else []) ++
  (if d &&& 0xFF0000 ≠ 0 ∨ d &&& 0xFF000000 ≠ 0 then [(d >>> 16) &&& 0xFF] else []) ++
  (if d &&& 0xFF00 ≠ 0 ∨ d &&& 0xFF0000 ≠ 0 ∨ d &&& 0xFF000000 ≠ 0 then
    [(d >>> 8) &&& 0xFF] else []) ++
  [d &&& 0xFF]

def PackedDWLength (d : Nat) : Nat :=
  if (d >>> 28) &&& 0x7F ≠ 0 then 5
  else if (d >>> 21) &&& 0x7F ≠ 0 then 4
  else if (d >>> 14) &&& 0x7F ≠ 0 then 3
  else if (d >>> 7) &&& 0x7F ≠ 0 then 2
  else 1

def PutPackedDW (d : Nat) : List Nat :=
  (if (d >>> 28) &&& 0x7F ≠ 0 then [0x80 ||| ((d >>> 28) &&& 0x7F)] else []) ++
  (if (d >>> 21) &&& 0x7F ≠ 0 ∨ (d >>> 28) &&& 0x7F ≠ 0 then
    [0x80 ||| ((d >>> 21) &&& 0x7F)] else []) ++
  (if (d >>> 14) &&& 0x7F ≠ 0 ∨ (d >>> 21) &&& 0x7F ≠ 0 ∨ (d >>> 28) &&& 0x7F ≠ 0 then
    [0x80 ||| ((d >>> 14) &&& 0x7F)] else []) ++
  (if (d >>> 7) &&& 0x7F ≠ 0 ∨ (d >>> 14) &&& 0x7F ≠ 0 ∨ (d >>> 21) &&& 0x7F ≠ 0 ∨
      (d >>> 28) &&& 0x7F ≠ 0 then
    [0x80 ||| ((d >>> 7) &&& 0x7F)] else []) ++
  [d &&& 0x7F]

def sdwCond4 (d : Nat) : Prop :=
  (d &&& 0xFF000000 ≠ 0 ∧ d &&& 0xFF800000 ≠ 0xFF800000) ∨ d &&& 0xFF800000 = 0x800000

def sdwCond3 (d : Nat) : Prop :=
  (d &&& 0xFF0000 ≠ 0 ∧ d &&& 0xFF8000 ≠ 0xFF8000) ∨ d &&& 0xFF8000 = 0x8000

def sdwCond2 (d : Nat) : Prop :=
  (d &&& 0xFF00 ≠ 0 ∧ d &&& 0xFF80 ≠ 0xFF80) ∨ d &&& 0xFF80 = 0x80

instance (d : Nat) : Decidable (sdwCond4 d) := by unfold sdwCond4; infer_instance

instance (d : Nat) : Decidable (sdwCond3 d) := by unfold sdwCond3; infer_instance

instance (d : Nat) : Decidable (sdwCond2 d) := by unfold sdwCond2; infer_instance

def SignedDWLength (d : Nat) : Nat :=
  if sdwCond4 d then 4
  else if sdwCond3 d then 3
  else if sdwCond2 d then 2
  else 1

def PutSignedDW (d : Nat) : List Nat :=
  (if sdwCond4 d then [(d >>> 24) &&& 0xFF] else []) ++
  (if sdwCond3 d ∨ sdwCond4 d then [(d >>> 16) &&& 0xFF] else []) ++
  (if sdwCond2 d ∨ sdwCond3 d ∨ sdwCond4 d then [(d >>> 8) &&& 0xFF] else []) ++
  [d &&& 0xFF]

theorem PutDW_length (d : Nat) : (PutDW d).length = DWLength d := by
  unfold PutDW DWLength
  by_cases h4 : d &&& 0xFF000000 ≠ 0 <;>
    by_cases h3 : d &&& 0xFF0000 ≠ 0 <;>
      by_cases h2 : d &&& 0xFF00 ≠ 0 <;>
        simp [h4, h3, h2]

theorem PutPackedDW_length (d : Nat) : (PutPackedDW d).length = PackedDWLength d := by
  unfold PutPackedDW PackedDWLength
  by_cases h5 : (d >>> 28) &&& 0x7F ≠ 0 <;>
    by_cases h4 : (d >>> 21) &&& 0x7F ≠ 0 <;>
      by_cases h3 : (d >>> 14) &&& 0x7F ≠ 0 <;>
        by_cases h2 : (d >>> 7) &&& 0x7F ≠ 0 <;>
          simp [h5, h4, h3, h2]

theorem PutSignedDW_length (d : Nat) : (PutSignedDW d).length = SignedDWLength d := by
  unfold PutSignedDW SignedDWLength
  by_cases h4 : sdwCond4 d <;>
    by_cases h3 : sdwCond3 d <;>
      by_cases h2 : sdwCond2 d <;>
        simp [h4, h3, h2]

/-! ## The DER node tree (asn1/Asn1Type.cpp and the concrete node classes)

One constructor per concrete node class.  `integerVal` is
`CAsn1Integer(int)` (the C int is re-read as a 32-bit unsigned word);
`integerRaw` is `CAsn1Integer(bytes)`; `objectId` carries the list of arcs
the OID-string parse of `CAsn1Object` produces; `rawData` is `CAsn1RawData`
(always implicit, with its stored constructed flag); `tagged` is
`CAsn1Tagged(inner, tag)`; `markImplicit` records a `SetImplicit()` call on
the wrapped node.  `boolean` has no source file under src; it is modelled
from the spec (one content byte) and plays no role in the length analysis
beyond its fixed universal tag 1.

The children of a sequence/set are a mutually inductive list so that the
mutual recursions below are structural. -/

mutual
inductive Asn1Node where
  | boolean : Bool → Asn1Node
  | integerVal : Int → Asn1Node
  | integerRaw : List Nat → Asn1Node
  | octetString : List Nat → Asn1Node
  | nullNode : Asn1Node
  | objectId : List Nat → Asn1Node
  | utcTime : Nat → Nat → Nat → Nat → Nat → Nat → Asn1Node
  | rawData : List Nat → Bool → Asn1Node
  | sequence : Asn1NodeList → Asn1Node
  | setOf : Asn1NodeList → Asn1Node
  | tagged : Asn1Node → Nat → Asn1Node
  | markImplicit : Asn1Node → Asn1Node
deriving Repr
inductive Asn1NodeList where
  | nil : Asn1NodeList
  | cons : Asn1Node → Asn1NodeList → Asn1NodeList
deriving Repr
end

/-- `m_bImplicit`: set in the `CAsn1RawData` constructor and by
`SetImplicit()`. -/
def bImplicit : Asn1Node → Bool
  | .rawData _ _ => true
  | .markImplicit _ => true
  | _ => false

/-- `m_dwTag`.  `CAsn1RawData` never initializes `m_dwTag`; it is implicit,
so the tag is never emitted nor counted; we use 0. -/
def dwTag : Asn1Node → Nat
  | .boolean _ => 1
  | .integerVal _ => 2
  | .integerRaw _ => 2
  | .octetString _ => 4
  | .nullNode => 5
  | .objectId _ => 6
  | .utcTime _ _ _ _ _ _ => 23
  | .rawData _ _ => 0
  | .sequence _ => 16
  | .setOf _ => 17
  | .tagged _ t => t
  | .markImplicit n => dwTag n

/-- `m_bConstructed`.  For `CAsn1Tagged` the constructor sets it to the
inner node's constructedness when the inner node is implicit, else TRUE. -/
def bConstructed : Asn1Node → Bool
  | .boolean _ => false
  | .integerVal _ => false
  | .integerRaw _ => false
  | .octetString _ => false
  | .nullNode => false
  | .objectId _ => false
  | .utcTime _ _ _ _ _ _ => false
  | .rawData _ c => c
  | .sequence _ => true
  | .setOf _ => true
  | .tagged inner _ => if bImplicit inner then bConstructed inner else true
  | .markImplicit n => bConstructed n

/-- `m_bClass`: universal everywhere except `CAsn1Tagged`
(context-specific); `CAsn1RawData` leaves it uninitialized (never emitted,
modelled as 0). -/
def bClass : Asn1Node → Nat
  | .tagged _ _ => 0x80
  | .markImplicit n => bClass n
  | _ => 0

/-- The C int passed to `CAsn1Integer(int)` re-read as the 32-bit unsigned
word the constructor casts it to. -/
def ulOfInt (i : Int) : Nat := (i % (2 ^ 32 : Int)).toNat

/-- The arc fusion of `CAsn1Object`: `oid[1] = oid[0]*40 + oid[1]` (32-bit
arithmetic) and the first arc is then skipped. -/
def oidFuse : List Nat → List Nat
  | a :: b :: rest => ((a * 40 + b) % 2 ^ 32) :: rest
  | l => l

/-- The two-decimal-digit table `d[100]` of `CAsn1UTCTime` (Asn1UTCTime.cpp).
Entry 55 of the source table is the string "15", not "55". -/
def dDigits (i : Nat) : List Nat :=
  if i = 55 then [0x31, 0x35] else [0x30 + i / 10, 0x30 + i % 10]

/-- The 13 content bytes "YYMMDDhhmmssZ" built by the `CAsn1UTCTime`
constructor, including its `% 12` / `% 31` substitutions. -/
def utcTimeData (y mo d h mi s : Nat) : List Nat :=
  dDigits (y % 100) ++
  (if mo % 12 = 0 then dDigits 12 else dDigits (mo % 12)) ++
  (if d % 31 = 0 then dDigits 31 else dDigits (d % 31)) ++
  dDigits (h % 24) ++ dDigits (mi % 60) ++ dDigits (s % 60) ++ [0x5A]

/-- `CAsn1Type::GetEncodedLength` as a function of the implicit flag, the
tag and the content data length; the `& 0xFFFFFF80` test decides long-form
length encoding. -/
def totalLen (implicit : Bool) (tag : Nat) (d : Nat) : Nat :=
  if implicit then d
  else (if tag < 31 then 1 else PackedDWLength tag) + 1 +
    (if d &&& 0xFFFFFF80 ≠ 0 then DWLength d else 0) + d

mutual
/-- `m_dwEncodedDataLength` of each node, as computed by its constructor
(`Add` keeps a sequence/set's value equal to the sum of the children's
`GetEncodedLength`). -/
def encDataLen : Asn1Node → Nat
  | .boolean _ => 1
  | .integerVal i => SignedDWLength (ulOfInt i)
  | .integerRaw bs => bs.length
  | .octetString bs => bs.length
  | .nullNode => 0
  | .objectId arcs => ((oidFuse arcs).map PackedDWLength).sum
  | .utcTime _ _ _ _ _ _ => 13
  | .rawData bs _ => bs.length
  | .sequence l => encLenSum l
  | .setOf l => encLenSum l
  | .tagged inner _ => totalLen (bImplicit inner) (dwTag inner) (encDataLen inner)
  | .markImplicit n => encDataLen n
def encLenSum : Asn1NodeList → Nat
  | .nil => 0
  | .cons n rest => totalLen (bImplicit n) (dwTag n) (encDataLen n) + encLenSum rest
end

/-- `CAsn1Type::GetEncodedLength`. -/
def GetEncodedLength (n : Asn1Node) : Nat :=
  totalLen (bImplicit n) (dwTag n) (encDataLen n)

/-- `CAsn1Type::PutHeader`: the optional `0x1F` lead byte (written when
`m_dwTag & 0xFFFFFFE0` is non-zero), the packed tag with class and
constructed bits OR-ed into the first written byte, the optional long-form
length marker `0x80 + DWLength`, then `PutDW` of the data length. -/
def PutHeader (cls : Nat) (constructed : Bool) (tag : Nat) (d : Nat) : List Nat :=
  let tagBytes : List Nat :=
    (if tag &&& 0xFFFFFFE0 ≠ 0 then [0x1F] else []) ++ PutPackedDW tag
  (tagBytes.headD 0 ||| cls ||| (if constructed then 0x20 else 0)) :: tagBytes.tail ++
  (if d &&& 0xFFFFFF80 ≠ 0 then [0x80 + DWLength d] else []) ++ PutDW d

/-- `CAsn1Type::GetEncoded` of a node whose `PutData` output is `data`:
implicit nodes emit the bare data, all others prepend the header. -/
def emitNode (n : Asn1Node) (data : List Nat) : List Nat :=
  if bImplicit n then data
  else PutHeader (bClass n) (bConstructed n) (dwTag n) (encDataLen n) ++ data

mutual
/-- `PutData` of each concrete node class: the content bytes it writes. -/
def putData : Asn1Node → List Nat
  | .boolean b => [if b then 0xFF else 0x00]
  | .integerVal i => PutSignedDW (ulOfInt i)
  | .integerRaw bs => bs
  | .octetString bs => bs
  | .nullNode => []
  | .objectId arcs => ((oidFuse arcs).map PutPackedDW).flatten
  | .utcTime y mo d h mi s => utcTimeData y mo d h mi s
  | .rawData bs _ => bs
  | .sequence l => putSeq l
  | .setOf l => putSeq l
  | .tagged inner _ => emitNode inner (putData inner)
  | .markImplicit n => putData n
def putSeq : Asn1NodeList → List Nat
  | .nil => []
  | .cons n rest => emitNode n (putData n) ++ putSeq rest
end

/-- `CAsn1Type::GetEncoded`: the byte stream the node writes. -/
def GetEncoded (n : Asn1Node) : List Nat := emitNode n (putData n)

mutual
/-- Every header emitted inside the node's content belongs to a node whose
tag number is < 31 (or to an implicit node, whose header is skipped). -/
def tagsOkData : Asn1Node → Bool
  | .sequence l => tagsOkList l
  | .setOf l => tagsOkList l
  | .tagged inner _ =>
      (bImplicit inner || decide (dwTag inner < 31)) && tagsOkData inner
  | .markImplicit n => tagsOkData n
  | _ => true
def tagsOkList : Asn1NodeList → Bool
  | .nil => true
  | .cons n rest =>
      (bImplicit n || decide (dwTag n < 31)) && tagsOkData n && tagsOkList rest
end

/-- Every header emitted by `GetEncoded`, the node's own included, belongs
to a node with tag number < 31. -/
def tagsOk (n : Asn1Node) : Bool :=
  (bImplicit n || decide (dwTag n < 31)) && tagsOkData n

theorem and_eq_zero_of_subset (d M m : Nat) (h : d &&& M = 0) (hm : M &&& m = m) :
    d &&& m = 0 := by
  calc d &&& m = d &&& (M &&& m) := by rw [hm]
  _ = d &&& M &&& m := by rw [Nat.and_assoc]
  _ = 0 := by rw [h, Nat.zero_and]

theorem DWLength_of_short (d : Nat) (h : ¬d &&& 0xFFFFFF80 ≠ 0) : DWLength d = 1 := by
  have h0 : d &&& 0xFFFFFF80 = 0 := by omega
  have h2 : d &&& 0xFF00 = 0 := and_eq_zero_of_subset d 0xFFFFFF80 0xFF00 h0 (by decide)
  have h3 : d &&& 0xFF0000 = 0 := and_eq_zero_of_subset d 0xFFFFFF80 0xFF0000 h0 (by decide)
  have h4 : d &&& 0xFF000000 = 0 :=
    and_eq_zero_of_subset d 0xFFFFFF80 0xFF000000 h0 (by decide)
  simp [DWLength, h2, h3, h4]

theorem PutPackedDW_of_lt31 (tag : Nat) (ht : tag < 31) :
    PutPackedDW tag = [tag &&& 0x7F] := by
  have e7 : tag >>> 7 = 0 := by
    rw [Nat.shiftRight_eq_div_pow]
    omega
  have e14 : tag >>> 14 = 0 := by
    rw [Nat.shiftRight_eq_div_pow]
    omega
  have e21 : tag >>> 21 = 0 := by
    rw [Nat.shiftRight_eq_div_pow]
    omega
  have e28 : tag >>> 28 = 0 := by
    rw [Nat.shiftRight_eq_div_pow]
    omega
  simp [PutPackedDW, e7, e14, e21, e28]

theorem PutHeader_length (cls : Nat) (co : Bool) (tag d : Nat) (ht : tag < 31) :
    (PutHeader cls co tag d).length =
      (if tag < 31 then 1 else PackedDWLength tag) + 1 +
      (if d &&& 0xFFFFFF80 ≠ 0 then DWLength d else 0) := by
  have htm : tag &&& 0xFFFFFFE0 = 0 := by
    have hall : ∀ t, t < 31 → t &&& 0xFFFFFFE0 = 0 := by decide
    exact hall tag ht
  unfold PutHeader
  rw [PutPackedDW_of_lt31 tag ht]
  by_cases hd : d &&& 0xFFFFFF80 ≠ 0
  · simp [htm, hd, ht, PutDW_length]
    omega
  · simp [htm, hd, ht, PutDW_length, DWLength_of_short d hd]

theorem emitNode_length (n : Asn1Node)
    (hTop : bImplicit n = true ∨ dwTag n < 31)
    (hData : (putData n).length = encDataLen n) :
    (emitNode n (putData n)).length =
      totalLen (bImplicit n) (dwTag n) (encDataLen n) := by
  by_cases hi : bImplicit n = true
  · simp [emitNode, totalLen, hi, hData]
  · have ht : dwTag n < 31 := by
      rcases hTop with h | h
      · exact absurd h hi
      · exact h
    have hb : bImplicit n = false := by
      revert hi
      cases bImplicit n <;> simp
    simp only [emitNode, totalLen, hb, Bool.false_eq_true, if_false, List.length_append,
      PutHeader_length (bClass n) (bConstructed n) (dwTag n) (encDataLen n) ht, hData]
    try omega

theorem dDigits_length (i : Nat) : (dDigits i).length = 2 := by
  unfold dDigits
  split <;> rfl

theorem utcTimeData_length (y mo d h mi s : Nat) :
    (utcTimeData y mo d h mi s).length = 13 := by
  unfold utcTimeData
  by_cases hmo : mo % 12 = 0 <;> by_cases hd : d % 31 = 0 <;>
    simp [hmo, hd, dDigits_length]

mutual
theorem putData_length (n : Asn1Node) (h : tagsOkData n = true) :
    (putData n).length = encDataLen n := by
  match n with
  | .boolean b => rfl
  | .integerVal i => exact PutSignedDW_length (ulOfInt i)
  | .integerRaw bs => rfl
  | .octetString bs => rfl
  | .nullNode => rfl
  | .objectId arcs =>
    show (((oidFuse arcs).map PutPackedDW).flatten).length = _
    rw [List.length_flatten, List.map_map]
    simp [Function.comp_def, PutPackedDW_length, encDataLen]
  | .utcTime y mo d hh mi s => exact utcTimeData_length y mo d hh mi s
  | .rawData bs c => rfl
  | .sequence l =>
    have hl : tagsOkList l = true := h
    exact putSeq_length l hl
  | .setOf l =>
    have hl : tagsOkList l = true := h
    exact putSeq_length l hl
  | .tagged inner t =>
    have hsplit : (bImplicit inner || decide (dwTag inner < 31)) = true ∧
        tagsOkData inner = true := by
      have := h
      simp only [tagsOkData, Bool.and_eq_true] at this
      exact this
    have hTop : bImplicit inner = true ∨ dwTag inner < 31 := by
      have := hsplit.1
      rcases Bool.or_eq_true _ _ |>.mp this with h1 | h1
      · exact Or.inl h1
      · exact Or.inr (of_decide_eq_true h1)
    exact emitNode_length inner hTop (putData_length inner hsplit.2)
  | .markImplicit m =>
    have hm : tagsOkData m = true := h
    exact putData_length m hm
theorem putSeq_length (l : Asn1NodeList) (h : tagsOkList l = true) :
    (putSeq l).length = encLenSum l := by
  match l with
  | .nil => rfl
  | .cons n rest =>
    have hsplit : ((bImplicit n || decide (dwTag n < 31)) = true ∧ tagsOkData n = true) ∧
        tagsOkList rest = true := by
      have := h
      simp only [tagsOkList, Bool.and_eq_true] at this
      exact ⟨this.1, this.2⟩
    have hTop : bImplicit n = true ∨ dwTag n < 31 := by
      rcases Bool.or_eq_true _ _ |>.mp hsplit.1.1 with h1 | h1
      · exact Or.inl h1
      · exact Or.inr (of_decide_eq_true h1)
    show (emitNode n (putData n) ++ putSeq rest).length = _
    rw [List.length_append, emitNode_length n hTop (putData_length n hsplit.1.2),
      putSeq_length rest hsplit.2]
    rfl
end

/-- C1 (amended): for every DER node all of whose emitted headers carry tag
numbers < 31 — which covers every universal variant and every tagged wrapper
actually built by the library — `GetEncoded` writes exactly
`GetEncodedLength` bytes, the encoded length being header length (one tag
byte, one length byte for data lengths ≤ 127, else `0x80|n` followed by the
n big-endian length bytes) plus content data length.  (For a tagged wrapper
with tag number ≥ 32 `GetEncoded` writes one byte more than
`GetEncodedLength` counts: the `0x1F` lead byte is emitted but not counted.) -/
theorem getEncoded_writes_encodedLength (n : Asn1Node) (h : tagsOk n = true) :
    (GetEncoded n).length = GetEncodedLength n := by
  have hsplit : (bImplicit n || decide (dwTag n < 31)) = true ∧ tagsOkData n = true := by
    have := h
    simp only [tagsOk, Bool.and_eq_true] at this
    exact this
  have hTop : bImplicit n = true ∨ dwTag n < 31 := by
    rcases Bool.or_eq_true _ _ |>.mp hsplit.1 with h1 | h1
    · exact Or.inl h1
    · exact Or.inr (of_decide_eq_true h1)
  exact emitNode_length n hTop (putData_length n hsplit.2)

/-- C1 counterexample: an explicit tagged wrapper with tag number 32 around a
NULL node.  `GetEncoded` writes 5 bytes (`BF 20 02 05 00`: `0x1F`-prefixed
two-byte tag, length, inner TLV) but `GetEncodedLength` reports 4. -/
theorem getEncoded_length_counterexample :
    (GetEncoded (Asn1Node.tagged Asn1Node.nullNode 32)).length = 5 ∧
    GetEncodedLength (Asn1Node.tagged Asn1Node.nullNode 32) = 4 := by
  constructor
  · decide
  · decide

/-- Witness for `getEncoded_writes_encodedLength` at a concrete SignerInfo-like
tree: a sequence of an INTEGER 128, an OCTET STRING, a UTCTime and an
explicit [0] wrapper around an implicit set. -/
theorem getEncoded_writes_encodedLength_witness :
    tagsOk (Asn1Node.sequence
      (.cons (.integerVal 128)
        (.cons (.octetString [1, 2, 3])
          (.cons (.utcTime 2024 1 2 3 4 5)
            (.cons (.tagged (.markImplicit (.setOf (.cons .nullNode .nil))) 0)
              .nil))))) = true ∧
    (GetEncoded (Asn1Node.sequence
      (.cons (.integerVal 128)
        (.cons (.octetString [1, 2, 3])
          (.cons (.utcTime 2024 1 2 3 4 5)
            (.cons (.tagged (.markImplicit (.setOf (.cons .nullNode .nil))) 0)
              .nil)))))).length =
      GetEncodedLength (Asn1Node.sequence
        (.cons (.integerVal 128)
          (.cons (.octetString [1, 2, 3])
            (.cons (.utcTime 2024 1 2 3 4 5)
              (.cons (.tagged (.markImplicit (.setOf (.cons .nullNode .nil))) 0)
                .nil))))) := by
  refine ⟨by decide, getEncoded_writes_encodedLength _ (by decide)⟩

/-! ## UTCTime round trip (Asn1UTCTime.cpp)

The emitted 13 content bytes are `utcTimeData` above (faithful to the source
table, whose entry 55 reads "15").  The library contains no UTCTime reader,
so the parse direction is the spec's. -/

/-- Modelled from the spec: parsing the 13-byte form "YYMMDDhhmmssZ" back to
a (Y,M,D,h,m,s) tuple with the century convention YY<50 ⇒ 20YY, else 19YY
(spec section 8, UTCTime round-trip property).  No parser exists in the
source; this is the specification side of the round-trip relation. -/
def utcParse (bs : List Nat) : Option (Nat × Nat × Nat × Nat × Nat × Nat) :=
  match bs with
  | [y1, y2, m1, m2, d1, d2, h1, h2, n1, n2, s1, s2, z] =>
    if z = 0x5A ∧ (∀ c ∈ [y1, y2, m1, m2, d1, d2, h1, h2, n1, n2, s1, s2],
        0x30 ≤ c ∧ c ≤ 0x39) then
      let yy := (y1 - 0x30) * 10 + (y2 - 0x30)
      let year := if yy < 50 then 2000 + yy else 1900 + yy
      some (year, (m1 - 0x30) * 10 + (m2 - 0x30), (d1 - 0x30) * 10 + (d2 - 0x30),
        (h1 - 0x30) * 10 + (h2 - 0x30), (n1 - 0x30) * 10 + (n2 - 0x30),
        (s1 - 0x30) * 10 + (s2 - 0x30))
    else none
  | _ => none

/-- C6 failing input: the tuple (1950,1,1,0,0,55) is inside the claimed
domain, but the source's digit table maps 55 to the string "15", so the
emitted bytes read "500101000015Z" and parse back with seconds = 15, not 55.
(The same happens whenever the year mod 100, the minute or the second equals
55.) -/
theorem utcTime_roundtrip_bug :
    utcTimeData 1950 1 1 0 0 55 =
      [0x35, 0x30, 0x30, 0x31, 0x30, 0x31, 0x30, 0x30, 0x30, 0x30, 0x31, 0x35, 0x5A] ∧
    utcParse (utcTimeData 1950 1 1 0 0 55) = some (1950, 1, 1, 0, 0, 15) ∧
    utcParse (utcTimeData 1950 1 1 0 0 55) ≠ some (1950, 1, 1, 0, 0, 55) := by
  refine ⟨by decide, by decide, by decide⟩

/-! ## Quoted-printable encoder (smime.cpp, StringToQuotedPrintable)

`qpGo` carries the running column counter `dwLineCounter`; the "not the last
input byte" condition of the protected-space rule is `rest ≠ []`.  `=HH` uses
the uppercase hex digits of `sprintf("%02X")`. -/

def hexDigitU (n : Nat) : Nat := if n < 10 then 0x30 + n else 55 + n

def qpQuoted (c : Nat) : Bool :=
  decide (c < 32) || decide (c > 127) || (decide (39 ≤ c) && decide (c ≤ 41)) ||
    (decide (43 ≤ c) && decide (c ≤ 47)) || decide (c = 58) || decide (c = 61) ||
    decide (c = 63)

def qpGo (lc : Nat) : List Nat → List Nat
  | [] => []
  | c :: rest =>
    let step : List Nat × Nat :=
      if c = 32 ∧ rest ≠ [] ∧ lc ≥ 70 then ([0x3D, 0x32, 0x30], lc + 3)
      else if qpQuoted c then ([0x3D, hexDigitU (c / 16), hexDigitU (c % 16)], lc + 3)
      else ([c], lc + 1)
    if step.2 ≥ 72 then step.1 ++ [0x3D, 0x0D, 0x0A] ++ qpGo 0 rest
    else step.1 ++ qpGo step.2 rest

def qpEncode (s : List Nat) : List Nat := qpGo 0 s

/-- C9 counterexample: 80 consecutive 0x41 bytes do NOT encode to 70 'A's,
soft break, 10 'A's — the encoder wraps only when the column counter reaches
72. -/
theorem qp_wrap_counterexample :
    qpEncode (List.replicate 80 0x41) ≠
      List.replicate 70 0x41 ++ [0x3D, 0x0D, 0x0A] ++ List.replicate 10 0x41 := by
  decide

/-- C9 (amended): byte 0xA0 encodes to "=A0" and byte '=' to "=3D" as
claimed; 80 consecutive 'A' bytes encode to 72 'A' characters, then the soft
line break "=\r\n", then the remaining 8 'A' characters (the wrap fires when
the column counter reaches 72, not 70). -/
theorem qp_concrete_encodings :
    qpEncode [0xA0] = [0x3D, 0x41, 0x30] ∧
    qpEncode [0x3D] = [0x3D, 0x33, 0x44] ∧
    qpEncode (List.replicate 80 0x41) =
      List.replicate 72 0x41 ++ [0x3D, 0x0D, 0x0A] ++ List.replicate 8 0x41 := by
  refine ⟨by decide, by decide, by decide⟩

/-! ## DER micro-parser (pkcs7.cpp, der_parse)

Pointers are modelled as offsets from the start of the slice.  A parsed item
records the full tag byte, value offset and length, and the "full" offset and
length including the TLV header — the fields of `_DER_ITEM`.

Control flow of the C loop, faithfully: a high tag number (`tag & 31 == 31`)
aborts; a missing length byte aborts; length byte `0x80` (indefinite) aborts;
for a long definite length the lol length bytes are read big-endian, aborting
when the slice ends first, but the guard for lol > 4 is the no-op statement
`if(b>4) v;` (no `return`), so such an element falls through the `switch`
with `ln == 0` and is recorded as a zero-length item; a length that runs past
the slice aborts. -/

structure DerItem where
  tag : Nat
  valueOff : Nat
  len : Nat
  fullOff : Nat
  flen : Nat
deriving DecidableEq, Repr

def lnAccum (bs : List Nat) : Nat :=
  bs.foldl (fun a b => (a <<< 8) ||| b) 0

def derParseGo : Nat → List Nat → Nat → List DerItem
  | 0, _, _ => []
  | _ + 1, [], _ => []
  | fuel + 1, t :: rest, off =>
    if t &&& 31 = 31 then []
    else
      match rest with
      | [] => []
      | b :: rest2 =>
        if b = 0x80 then []
        else if b &&& 0x80 ≠ 0 then
          let lol := b &&& 0x7F
          if 1 ≤ lol ∧ lol ≤ 4 then
            if rest2.length < lol then []
            else
              let ln := lnAccum (rest2.take lol)
              if ln > rest2.length - lol then []
              else
                ⟨t, off + 2 + lol, ln, off, 2 + lol + ln⟩ ::
                  derParseGo fuel ((rest2.drop lol).drop ln) (off + 2 + lol + ln)
          else
            ⟨t, off + 2, 0, off, 2⟩ :: derParseGo fuel rest2 (off + 2)
        else
          if b > rest2.length then []
          else ⟨t, off + 2, b, off, 2 + b⟩ :: derParseGo fuel (rest2.drop b) (off + 2 + b)

/-- `der_parse`.  The fuel argument only bounds the loop: every iteration of
the C `while` consumes at least two input bytes, so `bytes.length + 1`
iterations always suffice and the fuel never runs out. -/
def der_parse (bytes : List Nat) : List DerItem := derParseGo (bytes.length + 1) bytes 0

/-- C8: the parser does reject an indefinite length byte 0x80, a high tag
number (tag & 31 = 31) and a length that runs past the slice — but it does
NOT reject a length-of-length > 4.  The element `04 85 00` (length byte 0x85,
i.e. five length bytes announced) should yield no item per the claim; the
source's `if(b>4) v;` lacks a `return`, so the element is recorded as a
zero-length item and parsing continues after the length byte. -/
theorem der_parse_lol_bug :
    der_parse [0x30, 0x80, 0x05, 0x00] = [] ∧
    der_parse [0x3F, 0x01, 0x00] = [] ∧
    der_parse [0x04, 0x03, 0x00] = [] ∧
    der_parse [0x04, 0x85, 0x00] = [⟨0x04, 2, 0, 0, 2⟩] ∧
    der_parse [0x04, 0x85, 0x00] ≠ [] := by
  refine ⟨by decide, by decide, by decide, by decide, by decide⟩

/-! ## Base64 codec (base64.h, base64.cpp)

`charTblList` is the 64-character encoding alphabet; `byteTblList` is the
source's 256-entry reverse table (0xFF marks an invalid byte, 0x40 = 64 marks
the pad character).  `b64EncodeGo` is `CBase64::Encode` with the group index
`i` and `uCyclesPerLineFeed = uLineLength >> 2`; `b64DecodeGo` is
`CBase64::Decode` with its 4-entry staging buffer made explicit. -/

def charTblList : List Nat := [
  0x41, 0x42, 0x43, 0x44, 0x45, 0x46, 0x47, 0x48, 0x49, 0x4A, 0x4B, 0x4C, 0x4D,
  0x4E, 0x4F, 0x50, 0x51, 0x52, 0x53, 0x54, 0x55, 0x56, 0x57, 0x58, 0x59, 0x5A,
  0x61, 0x62, 0x63, 0x64, 0x65, 0x66, 0x67, 0x68, 0x69, 0x6A, 0x6B, 0x6C, 0x6D,
  0x6E, 0x6F, 0x70, 0x71, 0x72, 0x73, 0x74, 0x75, 0x76, 0x77, 0x78, 0x79, 0x7A,
  0x30, 0x31, 0x32, 0x33, 0x34, 0x35, 0x36, 0x37, 0x38, 0x39, 0x2B, 0x2F]

def charTbl (v : Nat) : Nat := charTblList.getD v 0

def byteTblList : List Nat := [
  0xFF, 0xFF, 0xFF, 0xFF, 0xFF, 0xFF, 0xFF, 0xFF, 0xFF, 0xFF, 0xFF, 0xFF, 0xFF, 0xFF, 0xFF, 0xFF,
  0xFF, 0xFF, 0xFF, 0xFF, 0xFF, 0xFF, 0xFF, 0xFF, 0xFF, 0xFF, 0xFF, 0xFF, 0xFF, 0xFF, 0xFF, 0xFF,
  0xFF, 0xFF, 0xFF, 0xFF, 0xFF, 0xFF, 0xFF, 0xFF, 0xFF, 0xFF, 0xFF, 0x3E, 0xFF, 0xFF, 0xFF, 0x3F,
  0x34, 0x35, 0x36, 0x37, 0x38, 0x39, 0x3A, 0x3B, 0x3C, 0x3D, 0xFF, 0xFF, 0xFF, 0x40, 0xFF, 0xFF,
  0xFF, 0x00, 0x01, 0x02, 0x03, 0x04, 0x05, 0x06, 0x07, 0x08, 0x09, 0x0A, 0x0B, 0x0C, 0x0D, 0x0E,
  0x0F, 0x10, 0x11, 0x12, 0x13, 0x14, 0x15, 0x16, 0x17, 0x18, 0x19, 0xFF, 0xFF, 0xFF, 0xFF, 0xFF,
  0xFF, 0x1A, 0x1B, 0x1C, 0x1D, 0x1E, 0x1F, 0x20, 0x21, 0x22, 0x23, 0x24, 0x25, 0x26, 0x27, 0x28,
  0x29, 0x2A, 0x2B, 0x2C, 0x2D, 0x2E, 0x2F, 0x30, 0x31, 0x32, 0x33, 0xFF, 0xFF, 0xFF, 0xFF, 0xFF,
  0xFF, 0xFF, 0xFF, 0xFF, 0xFF, 0xFF, 0xFF, 0xFF, 0xFF, 0xFF, 0xFF, 0xFF, 0xFF, 0xFF, 0xFF, 0xFF,
  0xFF, 0xFF, 0xFF, 0xFF, 0xFF, 0xFF, 0xFF, 0xFF, 0xFF, 0xFF, 0xFF, 0xFF, 0xFF, 0xFF, 0xFF, 0xFF,
  0xFF, 0xFF, 0xFF, 0xFF, 0xFF, 0xFF, 0xFF, 0xFF, 0xFF, 0xFF, 0xFF, 0xFF, 0xFF, 0xFF, 0xFF, 0xFF,
  0xFF, 0xFF, 0xFF, 0xFF, 0xFF, 0xFF, 0xFF, 0xFF, 0xFF, 0xFF, 0xFF, 0xFF, 0xFF, 0xFF, 0xFF, 0xFF,
  0xFF, 0xFF, 0xFF, 0xFF, 0xFF, 0xFF, 0xFF, 0xFF, 0xFF, 0xFF, 0xFF, 0xFF, 0xFF, 0xFF, 0xFF, 0xFF,
  0xFF, 0xFF, 0xFF, 0xFF, 0xFF, 0xFF, 0xFF, 0xFF, 0xFF, 0xFF, 0xFF, 0xFF, 0xFF, 0xFF, 0xFF, 0xFF,
  0xFF, 0xFF, 0xFF, 0xFF, 0xFF, 0xFF, 0xFF, 0xFF, 0xFF, 0xFF, 0xFF, 0xFF, 0xFF, 0xFF, 0xFF, 0xFF,
  0xFF, 0xFF, 0xFF, 0xFF, 0xFF, 0xFF, 0xFF, 0xFF, 0xFF, 0xFF, 0xFF, 0xFF, 0xFF, 0xFF, 0xFF, 0xFF]

def byteTbl (c : Nat) : Nat := byteTblList.getD c 0xFF

/-- One full 3-byte group of `CBase64::Encode`'s main loop. -/
def enc3 (a b c : Nat) : List Nat :=
  [charTbl ((a &&& 0xFC) >>> 2),
   charTbl (((b &&& 0xF0) >>> 4) ||| ((a &&& 0x3) <<< 4)),
   charTbl (((c &&& 0xC0) >>> 6) ||| ((b &&& 0xF) <<< 2)),
   charTbl (c &&& 0x3F)]

/-- The `switch(bModulus)` tail of `CBase64::Encode`. -/
def encTail : List Nat → List Nat
  | [a] => [charTbl ((a &&& 0xFC) >>> 2), charTbl ((a &&& 0x3) <<< 4), 0x3D, 0x3D]
  | [a, b] => [charTbl ((a &&& 0xFC) >>> 2),
      charTbl (((b &&& 0xF0) >>> 4) ||| ((a &&& 0x3) <<< 4)),
      charTbl ((b &&& 0xF) <<< 2), 0x3D]
  | _ => []

def b64EncodeGo (cyc : Nat) (i : Nat) : List Nat → List Nat
  | a :: b :: c :: rest =>
    enc3 a b c ++ (if i % cyc = 0 then [0x0D, 0x0A] else []) ++
      b64EncodeGo cyc (i + 1) rest
  | tailBytes => encTail tailBytes

/-- `CBase64::Encode` with line length `lineLen` (the configured
`uLineLength`); `uCyclesPerLineFeed = uLineLength >> 2`. -/
def b64Encode (lineLen : Nat) (src : List Nat) : List Nat :=
  b64EncodeGo (lineLen >>> 2) 1 src

def b64DecodeGo (buf : List Nat) : List Nat → List Nat
  | [] => []
  | x :: rest =>
    let code := byteTbl x
    if code = 0xFF then b64DecodeGo buf rest
    else
      let buf2 := buf ++ [code]
      if code = 64 ∧ buf2.length = 3 then
        [((buf2.getD 0 0) <<< 2 ||| (buf2.getD 1 0) >>> 4) &&& 0xFF]
      else if code = 64 ∧ buf2.length = 4 then
        [((buf2.getD 0 0) <<< 2 ||| (buf2.getD 1 0) >>> 4) &&& 0xFF,
         ((buf2.getD 1 0) <<< 4 ||| (buf2.getD 2 0) >>> 2) &&& 0xFF]
      else if buf2.length = 4 then
        (((buf2.getD 0 0) <<< 2 ||| (buf2.getD 1 0) >>> 4) &&& 0xFF) ::
        (((buf2.getD 1 0) <<< 4 ||| (buf2.getD 2 0) >>> 2) &&& 0xFF) ::
        (((buf2.getD 2 0) <<< 6 ||| (buf2.getD 3 0)) &&& 0xFF) ::
        b64DecodeGo [] rest
      else b64DecodeGo buf2 rest

/-- `CBase64::Decode`. -/
def b64Decode (src : List Nat) : List Nat := b64DecodeGo [] src

set_option maxRecDepth 4000

theorem byteTbl_charTbl : ∀ v < 64, byteTbl (charTbl v) = v := by decide

theorem byteTbl_crlf : byteTbl 0x0D = 0xFF ∧ byteTbl 0x0A = 0xFF ∧ byteTbl 0x3D = 64 := by
  decide

theorem and_FC_shr2 : ∀ a < 256, (a &&& 0xFC) >>> 2 = a / 4 := by decide

theorem and_F0_shr4 : ∀ b < 256, (b &&& 0xF0) >>> 4 = b / 16 := by decide

theorem and_3 : ∀ a < 256, a &&& 0x3 = a % 4 := by decide

theorem and_F : ∀ b < 256, b &&& 0xF = b % 16 := by decide

theorem and_C0_shr6 : ∀ c < 256, (c &&& 0xC0) >>> 6 = c / 64 := by decide

theorem and_3F : ∀ c < 256, c &&& 0x3F = c % 64 := by decide

theorem lor_of_add (k x y : Nat) (hx : x < 2 ^ k) : (y * 2 ^ k) ||| x = y * 2 ^ k + x := by
  rw [Nat.mul_comm y (2 ^ k), ← Nat.mul_add_lt_is_or hx y]

theorem lor_shl4 (y x : Nat) (hx : x < 16) : x ||| (y <<< 4) = y * 16 + x := by
  rw [Nat.lor_comm, Nat.shiftLeft_eq, lor_of_add 4 x y (by norm_num; omega)]
  norm_num

theorem lor_shl2 (y x : Nat) (hx : x < 4) : x ||| (y <<< 2) = y * 4 + x := by
  rw [Nat.lor_comm, Nat.shiftLeft_eq, lor_of_add 2 x y (by norm_num; omega)]
  norm_num

theorem lor_mul4 (x y : Nat) (hy : y < 4) : (x * 4) ||| y = x * 4 + y := by
  have := lor_of_add 2 y x (by norm_num; omega)
  norm_num at this
  exact this

theorem lor_mul16 (x y : Nat) (hy : y < 16) : (x * 16) ||| y = x * 16 + y := by
  have := lor_of_add 4 y x (by norm_num; omega)
  norm_num at this
  exact this

theorem lor_mul64 (x y : Nat) (hy : y < 64) : (x * 64) ||| y = x * 64 + y := by
  have := lor_of_add 6 y x (by norm_num; omega)
  norm_num at this
  exact this

theorem and_FF_mod (z : Nat) : z &&& 0xFF = z % 256 := by
  have := Nat.and_pow_two_sub_one_eq_mod z 8
  norm_num at this
  exact this

theorem b64DecodeGo_skip_crlf (buf : List Nat) (L : List Nat) :
    b64DecodeGo buf (0x0D :: 0x0A :: L) = b64DecodeGo buf L := by
  simp [b64DecodeGo, byteTbl_crlf.1, byteTbl_crlf.2.1]

theorem b64_decode_quad (v0 v1 v2 v3 : Nat) (h0 : v0 < 64) (h1 : v1 < 64)
    (h2 : v2 < 64) (h3 : v3 < 64) (L : List Nat) :
    b64DecodeGo [] (charTbl v0 :: charTbl v1 :: charTbl v2 :: charTbl v3 :: L) =
      ((v0 <<< 2 ||| v1 >>> 4) &&& 0xFF) :: ((v1 <<< 4 ||| v2 >>> 2) &&& 0xFF) ::
      ((v2 <<< 6 ||| v3) &&& 0xFF) :: b64DecodeGo [] L := by
  have e0 := byteTbl_charTbl v0 h0
  have e1 := byteTbl_charTbl v1 h1
  have e2 := byteTbl_charTbl v2 h2
  have e3 := byteTbl_charTbl v3 h3
  have k0 : v0 ≠ 0xFF := by omega
  have k1 : v1 ≠ 0xFF := by omega
  have k2 : v2 ≠ 0xFF := by omega
  have k3 : v3 ≠ 0xFF := by omega
  have m0 : v0 ≠ 64 := by omega
  have m1 : v1 ≠ 64 := by omega
  have m2 : v2 ≠ 64 := by omega
  have m3 : v3 ≠ 64 := by omega
  simp [b64DecodeGo, e0, e1, e2, e3, k0, k1, k2, k3, m0, m1, m2, m3]

theorem b64_decode_pad1 (v0 v1 : Nat) (h0 : v0 < 64) (h1 : v1 < 64) (L : List Nat) :
    b64DecodeGo [] (charTbl v0 :: charTbl v1 :: 0x3D :: L) =
      [(v0 <<< 2 ||| v1 >>> 4) &&& 0xFF] := by
  have e0 := byteTbl_charTbl v0 h0
  have e1 := byteTbl_charTbl v1 h1
  have k0 : v0 ≠ 0xFF := by omega
  have k1 : v1 ≠ 0xFF := by omega
  have m0 : v0 ≠ 64 := by omega
  have m1 : v1 ≠ 64 := by omega
  simp [b64DecodeGo, e0, e1, k0, k1, m0, m1, byteTbl_crlf.2.2]

theorem b64_decode_pad2 (v0 v1 v2 : Nat) (h0 : v0 < 64) (h1 : v1 < 64) (h2 : v2 < 64)
    (L : List Nat) :
    b64DecodeGo [] (charTbl v0 :: charTbl v1 :: charTbl v2 :: 0x3D :: L) =
      [(v0 <<< 2 ||| v1 >>> 4) &&& 0xFF, (v1 <<< 4 ||| v2 >>> 2) &&& 0xFF] := by
  have e0 := byteTbl_charTbl v0 h0
  have e1 := byteTbl_charTbl v1 h1
  have e2 := byteTbl_charTbl v2 h2
  have k0 : v0 ≠ 0xFF := by omega
  have k1 : v1 ≠ 0xFF := by omega
  have k2 : v2 ≠ 0xFF := by omega
  have m0 : v0 ≠ 64 := by omega
  have m1 : v1 ≠ 64 := by omega
  have m2 : v2 ≠ 64 := by omega
  simp [b64DecodeGo, e0, e1, e2, k0, k1, k2, m0, m1, m2, byteTbl_crlf.2.2]

theorem dec_byte1 (a b : Nat) (ha : a < 256) (hb : b < 256) :
    ((a / 4) <<< 2 ||| ((a % 4) * 16 + b / 16) >>> 4) &&& 0xFF = a := by
  have h1 : (a / 4) <<< 2 = (a / 4) * 4 := by
    rw [Nat.shiftLeft_eq]
  have h2 : ((a % 4) * 16 + b / 16) >>> 4 = a % 4 := by
    rw [Nat.shiftRight_eq_div_pow]
    have e : (2 : Nat) ^ 4 = 16 := by norm_num
    rw [e]
    omega
  rw [h1, h2, lor_mul4 (a / 4) (a % 4) (by omega), and_FF_mod]
  omega

theorem dec_byte2 (a b c : Nat) (ha : a < 256) (hb : b < 256) (hc : c < 256) :
    (((a % 4) * 16 + b / 16) <<< 4 ||| ((b % 16) * 4 + c / 64) >>> 2) &&& 0xFF = b := by
  have h1 : ((a % 4) * 16 + b / 16) <<< 4 = ((a % 4) * 16 + b / 16) * 16 := by
    rw [Nat.shiftLeft_eq]
  have h2 : ((b % 16) * 4 + c / 64) >>> 2 = b % 16 := by
    rw [Nat.shiftRight_eq_div_pow]
    have e : (2 : Nat) ^ 2 = 4 := by norm_num
    rw [e]
    omega
  rw [h1, h2, lor_mul16 ((a % 4) * 16 + b / 16) (b % 16) (by omega), and_FF_mod]
  omega

theorem dec_byte3 (b c : Nat) (hb : b < 256) (hc : c < 256) :
    (((b % 16) * 4 + c / 64) <<< 6 ||| c % 64) &&& 0xFF = c := by
  have h1 : ((b % 16) * 4 + c / 64) <<< 6 = ((b % 16) * 4 + c / 64) * 64 := by
    rw [Nat.shiftLeft_eq]
  rw [h1, lor_mul64 ((b % 16) * 4 + c / 64) (c % 64) (by omega), and_FF_mod]
  omega

theorem dec_pad_byte1 (a : Nat) (ha : a < 256) :
    ((a / 4) <<< 2 ||| ((a % 4) * 16) >>> 4) &&& 0xFF = a := by
  have h1 : (a / 4) <<< 2 = (a / 4) * 4 := by
    rw [Nat.shiftLeft_eq]
  have h2 : ((a % 4) * 16) >>> 4 = a % 4 := by
    rw [Nat.shiftRight_eq_div_pow]
    have e : (2 : Nat) ^ 4 = 16 := by norm_num
    rw [e]
    omega
  rw [h1, h2, lor_mul4 (a / 4) (a % 4) (by omega), and_FF_mod]
  omega

theorem dec_pad_byte2 (a b : Nat) (ha : a < 256) (hb : b < 256) :
    (((a % 4) * 16 + b / 16) <<< 4 ||| ((b % 16) * 4) >>> 2) &&& 0xFF = b := by
  have h1 : ((a % 4) * 16 + b / 16) <<< 4 = ((a % 4) * 16 + b / 16) * 16 := by
    rw [Nat.shiftLeft_eq]
  have h2 : ((b % 16) * 4) >>> 2 = b % 16 := by
    rw [Nat.shiftRight_eq_div_pow]
    have e : (2 : Nat) ^ 2 = 4 := by norm_num
    rw [e]
    omega
  rw [h1, h2, lor_mul16 ((a % 4) * 16 + b / 16) (b % 16) (by omega), and_FF_mod]
  omega

theorem enc3_arith (a b c : Nat) (ha : a < 256) (hb : b < 256) (hc : c < 256) :
    enc3 a b c = [charTbl (a / 4), charTbl ((a % 4) * 16 + b / 16),
      charTbl ((b % 16) * 4 + c / 64), charTbl (c % 64)] := by
  unfold enc3
  rw [and_FC_shr2 a ha, and_F0_shr4 b hb, and_3 a ha,
    lor_shl4 (a % 4) (b / 16) (by omega),
    and_C0_shr6 c hc, and_F b hb,
    lor_shl2 (b % 16) (c / 64) (by omega),
    and_3F c hc]

theorem encTail1_arith (a : Nat) (ha : a < 256) :
    encTail [a] = [charTbl (a / 4), charTbl ((a % 4) * 16), 0x3D, 0x3D] := by
  show [charTbl ((a &&& 0xFC) >>> 2), charTbl ((a &&& 0x3) <<< 4), 0x3D, 0x3D] = _
  rw [and_FC_shr2 a ha, and_3 a ha, Nat.shiftLeft_eq]

theorem encTail2_arith (a b : Nat) (ha : a < 256) (hb : b < 256) :
    encTail [a, b] = [charTbl (a / 4), charTbl ((a % 4) * 16 + b / 16),
      charTbl ((b % 16) * 4), 0x3D] := by
  show [charTbl ((a &&& 0xFC) >>> 2),
      charTbl (((b &&& 0xF0) >>> 4) ||| ((a &&& 0x3) <<< 4)),
      charTbl ((b &&& 0xF) <<< 2), 0x3D] = _
  rw [and_FC_shr2 a ha, and_F0_shr4 b hb, and_3 a ha,
    lor_shl4 (a % 4) (b / 16) (by omega), and_F b hb, Nat.shiftLeft_eq]

theorem b64_decode_enc3 (a b c : Nat) (ha : a < 256) (hb : b < 256) (hc : c < 256)
    (L : List Nat) :
    b64DecodeGo [] (enc3 a b c ++ L) = a :: b :: c :: b64DecodeGo [] L := by
  rw [enc3_arith a b c ha hb hc]
  show b64DecodeGo [] (charTbl (a / 4) :: charTbl ((a % 4) * 16 + b / 16) ::
    charTbl ((b % 16) * 4 + c / 64) :: charTbl (c % 64) :: L) = _
  rw [b64_decode_quad (a / 4) ((a % 4) * 16 + b / 16) ((b % 16) * 4 + c / 64) (c % 64)
    (by omega) (by omega) (by omega) (by omega) L]
  rw [dec_byte1 a b ha hb, dec_byte2 a b c ha hb hc, dec_byte3 b c hb hc]

theorem b64_decode_encTail1 (a : Nat) (ha : a < 256) :
    b64DecodeGo [] (encTail [a]) = [a] := by
  rw [encTail1_arith a ha]
  show b64DecodeGo [] (charTbl (a / 4) :: charTbl ((a % 4) * 16) :: 0x3D :: [0x3D]) = _
  rw [b64_decode_pad1 (a / 4) ((a % 4) * 16) (by omega) (by omega) [0x3D]]
  rw [dec_pad_byte1 a ha]

theorem b64_decode_encTail2 (a b : Nat) (ha : a < 256) (hb : b < 256) :
    b64DecodeGo [] (encTail [a, b]) = [a, b] := by
  rw [encTail2_arith a b ha hb]
  show b64DecodeGo [] (charTbl (a / 4) :: charTbl ((a % 4) * 16 + b / 16) ::
    charTbl ((b % 16) * 4) :: 0x3D :: []) = _
  rw [b64_decode_pad2 (a / 4) ((a % 4) * 16 + b / 16) ((b % 16) * 4)
    (by omega) (by omega) (by omega) []]
  rw [dec_byte1 a b ha hb, dec_pad_byte2 a b ha hb]

theorem b64DecodeGo_skip_crlfOpt (P : Prop) [Decidable P] (L : List Nat) :
    b64DecodeGo [] ((if P then [0x0D, 0x0A] else []) ++ L) = b64DecodeGo [] L := by
  by_cases h : P
  · simp only [h, if_true, List.cons_append, List.nil_append]
    exact b64DecodeGo_skip_crlf [] L
  · simp [h]

theorem b64_go_roundtrip (cyc i : Nat) (B : List Nat) (hb : ∀ x ∈ B, x < 256) :
    b64DecodeGo [] (b64EncodeGo cyc i B) = B := by
  match B with
  | [] => rfl
  | [a] =>
    show b64DecodeGo [] (encTail [a]) = [a]
    exact b64_decode_encTail1 a (hb a (by simp))
  | [a, b] =>
    show b64DecodeGo [] (encTail [a, b]) = [a, b]
    exact b64_decode_encTail2 a b (hb a (by simp)) (hb b (by simp))
  | a :: b :: c :: rest =>
    show b64DecodeGo [] (enc3 a b c ++ ((if i % cyc = 0 then [0x0D, 0x0A] else []) ++
      b64EncodeGo cyc (i + 1) rest)) = _
    rw [b64_decode_enc3 a b c (hb a (by simp)) (hb b (by simp)) (hb c (by simp))]
    rw [b64DecodeGo_skip_crlfOpt]
    rw [b64_go_roundtrip cyc (i + 1) rest (by
      intro x hx
      exact hb x (by simp [hx]))]

/-- C7: for every non-empty byte sequence and every configured line length of
at least 4 (the smallest value for which the C encoder's groups-per-line
divisor `uLineLength >> 2` is non-zero; `SetLineLength` clamps to multiples
of 4 up to 76, default 64), decoding the base64 encoding — CRLF line breaks
and '=' padding included — returns exactly the original bytes. -/
theorem b64_roundtrip (lineLen : Nat) (hL : 4 ≤ lineLen) (B : List Nat)
    (hB : B ≠ []) (hb : ∀ x ∈ B, x < 256) :
    b64Decode (b64Encode lineLen B) = B :=
  b64_go_roundtrip (lineLen >>> 2) 1 B hb

/-- Witness for `b64_roundtrip`: the bytes of "Man" with the default line
length 64. -/
theorem b64_roundtrip_witness :
    b64Decode (b64Encode 64 [0x4D, 0x61, 0x6E]) = [0x4D, 0x61, 0x6E] :=
  b64_roundtrip 64 (by decide) [0x4D, 0x61, 0x6E] (by decide) (by decide)
